import Mathlib

/-!
Shallow embedding of the DevInsight backend (TypeScript/Express/Mongoose) for
verification of its metrics-refresh, alerting, report-scheduling and CSV-export
behaviour.

Conventions of the embedding:
* machine time is modelled as `Int` milliseconds since the epoch
  (`Date.getTime()`);
* JavaScript floating-point arithmetic on durations and ratios is modelled with
  exact rationals `ℚ` (all quantities involved are far below the range where
  IEEE-754 doubles diverge from exact arithmetic on these formulas);
* Mongoose `ObjectId`s are modelled as `Nat`;
* a fallible `await`ed call is modelled as an `Except String` value supplied by
  an oracle record, and a `try/catch` block is modelled by matching on it;
* a Mongoose document is a structure holding exactly the schema paths;
  assignments to paths that are not in the schema are dropped on `save()`
  (strict mode, the Mongoose default), which the embedding makes explicit.
-/

namespace DevInsight

/-- A GitHub pull request as consumed by the backend: creation time and the
optional merge time (`merged_at` is `null` for closed-but-unmerged PRs). -/
structure PullReq where
  created_at : Int
  merged_at : Option Int
  deriving Repr, DecidableEq

/-- One entry of the GitHub weekly commit-activity series (`week.total`). -/
structure WeekActivity where
  total : Nat
  deriving Repr, DecidableEq

/-- A GitHub issue; the backend only ever takes the length of issue lists. -/
structure Issue where
  number : Nat
  deriving Repr, DecidableEq

/-- The GitHub repository summary fields read by `updateRepoMetrics`. -/
structure GhRepoInfo where
  stargazers_count : Nat
  forks_count : Nat
  open_issues_count : Nat
  watchers_count : Nat
  deriving Repr, DecidableEq

/-- `metrics.commits` of `repositorySchema`. -/
structure CommitsMetrics where
  total : Nat
  weekly : List Nat
  deriving Repr, DecidableEq

/-- `metrics.pullRequests` of `repositorySchema`. -/
structure PullRequestsMetrics where
  «open» : Nat
  closed : Nat
  merged : Nat
  deriving Repr, DecidableEq

/-- `metrics.issues` of `repositorySchema`. -/
structure IssuesMetrics where
  «open» : Nat
  closed : Nat
  deriving Repr, DecidableEq

/-- The embedded `metrics` document of `repositorySchema`. -/
structure Metrics where
  commits : CommitsMetrics
  pullRequests : PullRequestsMetrics
  issues : IssuesMetrics
  contributors : Nat
  mergeTime : ℚ
  deriving Repr, DecidableEq

/-- The embedded `alerts` boolean triple of `repositorySchema`. -/
structure AlertFlags where
  noActivity : Bool
  longOpenPRs : Bool
  commitDrops : Bool
  deriving Repr, DecidableEq

/-- A `Repository` document (the schema paths used by the verified routines). -/
structure Repo where
  id : Nat
  owner : String
  name : String
  fullName : String
  description : String
  stars : Nat
  forks : Nat
  openIssues : Nat
  watchers : Nat
  lastFetched : Int
  users : List Nat
  metrics : Metrics
  alerts : AlertFlags
  deriving Repr, DecidableEq

/-- The seven GitHub API calls issued by one run of `updateRepoMetrics`, as an
oracle: each call either returns its payload or fails. The calls take only the
access token and repository coordinates, so their results are independent data.
-/
structure GhFetch where
  getRepo : Except String GhRepoInfo
  getWeeklyCommitActivity : Except String (List WeekActivity)
  openPullRequests : Except String (List PullReq)
  closedPullRequests : Except String (List PullReq)
  openIssuesList : Except String (List Issue)
  closedIssuesList : Except String (List Issue)
  contributorsList : Except String (List String)

/-- Milliseconds per hour, the divisor `1000 * 60 * 60` of the source. -/
def msPerHour : ℚ := 1000 * 60 * 60

/-- Milliseconds per day, the divisor `1000 * 60 * 60 * 24` of the source. -/
def msPerDay : ℚ := 1000 * 60 * 60 * 24

/-- The fold of `updateRepoMetrics` computing total merge time in hours:
`mergedPRs.reduce((sum, pr) => sum + (mergedAt - createdAt) / (1000*60*60), 0)`.
-/
def totalMergeTime (mergedPRs : List PullReq) : ℚ :=
  mergedPRs.foldl
    (fun sum pr => sum + ((pr.merged_at.getD 0 - pr.created_at : Int) : ℚ) / msPerHour) 0

/-- `updateRepoMetrics` from the repository controller: loads the repository,
issues the seven GitHub calls in order, mutates the in-memory document, and
saves once at the end.  The returned `.ok` value is the document as saved;
any failing call aborts before the save and the error is rethrown
(`catch (error) { ... throw error; }`). -/
def updateRepoMetrics (now : Int) (gh : GhFetch) (repo : Repo) :
    Except String Repo := do
  let githubRepo ← gh.getRepo
  let repo := { repo with
    stars := githubRepo.stargazers_count
    forks := githubRepo.forks_count
    openIssues := githubRepo.open_issues_count
    watchers := githubRepo.watchers_count }
  let commitActivity ← gh.getWeeklyCommitActivity
  let weekly := commitActivity.map (·.total)
  let repo := { repo with
    metrics.commits.weekly := weekly
    metrics.commits.total := weekly.foldl (fun sum count => sum + count) 0 }
  let openPRs ← gh.openPullRequests
  let closedPRs ← gh.closedPullRequests
  let repo := { repo with
    metrics.pullRequests.«open» := openPRs.length
    metrics.pullRequests.closed :=
      (closedPRs.filter (fun (pr : PullReq) => !pr.merged_at.isSome)).length
    metrics.pullRequests.merged :=
      (closedPRs.filter (fun (pr : PullReq) => pr.merged_at.isSome)).length }
  let mergedPRs := closedPRs.filter (fun pr => pr.merged_at.isSome)
  -- `if (mergedPRs.length > 0)` guards the assignment; otherwise the stored
  -- `metrics.mergeTime` is left as it was
  let repo := { repo with
    metrics.mergeTime :=
      if mergedPRs.length > 0 then totalMergeTime mergedPRs / mergedPRs.length
      else repo.metrics.mergeTime }
  let openIssues ← gh.openIssuesList
  let closedIssues ← gh.closedIssuesList
  let repo := { repo with
    metrics.issues.«open» := openIssues.length
    metrics.issues.closed := closedIssues.length }
  let contributors ← gh.contributorsList
  let repo := { repo with metrics.contributors := contributors.length }
  -- alerts: 1. no activity this week (`weekly.slice(-1)[0] === 0`;
  -- on an empty series the JS comparison is `undefined === 0`, i.e. false)
  let repo := { repo with
    alerts.noActivity := repo.metrics.commits.weekly.getLast? == some 0 }
  -- alerts: 2. some open PR older than 14 days
  let repo := { repo with
    alerts.longOpenPRs := openPRs.any
      (fun pr => ((now - pr.created_at : Int) : ℚ) / msPerDay > 14) }
  -- alerts: 3. week-over-week commit drop, only evaluated on >= 2 data points
  let weekly : List Nat := repo.metrics.commits.weekly
  let repo := { repo with
    alerts.commitDrops :=
      if weekly.length ≥ 2 then
        let currentWeek := weekly.getD (weekly.length - 1) 0
        let previousWeek := weekly.getD (weekly.length - 2) 0
        if previousWeek > 0 ∧ currentWeek = 0 then true
        else if previousWeek > 0 ∧ (currentWeek : ℚ) / (previousWeek : ℚ) < 3 / 10 then true
        else false
      else
        repo.alerts.commitDrops }
  let repo := { repo with lastFetched := now }
  pure repo

/-- The state of the `Repository` collection entry after a refresh attempt:
`repo.save()` runs only at the very end of the success path, so an error
leaves the stored document untouched. -/
def persistedAfterRefresh (now : Int) (gh : GhFetch) (stored : Repo) : Repo :=
  match updateRepoMetrics now gh stored with
  | .ok saved => saved
  | .error _ => stored

/-- `true` exactly on `Except.error`. -/
def isErr {ε α : Type} : Except ε α → Bool
  | .error _ => true
  | .ok _ => false

/-! ### Concrete fixtures used by witnesses and counterexamples -/

/-- An otherwise-empty metrics snapshot with a given stored `mergeTime`. -/
def metricsWithMergeTime (mt : ℚ) : Metrics :=
  { commits := { total := 0, weekly := [] }
    pullRequests := { «open» := 0, closed := 0, merged := 0 }
    issues := { «open» := 0, closed := 0 }
    contributors := 0
    mergeTime := mt }

/-- A stored `Repository` document subscribed to by user 1. -/
def baseRepo : Repo :=
  { id := 1, owner := "octo", name := "dev", fullName := "octo/dev", description := "d"
    stars := 0, forks := 0, openIssues := 0, watchers := 0
    lastFetched := 0, users := [1]
    metrics := metricsWithMergeTime 0
    alerts := { noActivity := false, longOpenPRs := false, commitDrops := false } }

/-- A GitHub repo summary used by the all-calls-succeed fixtures. -/
def okInfo : GhRepoInfo :=
  { stargazers_count := 2, forks_count := 1, open_issues_count := 0, watchers_count := 3 }

/-- An oracle where every call succeeds, parameterized by the activity series
and the closed-PR list. -/
def ghAllOk (acts : List WeekActivity) (closedPRs : List PullReq) : GhFetch :=
  { getRepo := .ok okInfo
    getWeeklyCommitActivity := .ok acts
    openPullRequests := .ok []
    closedPullRequests := .ok closedPRs
    openIssuesList := .ok []
    closedIssuesList := .ok []
    contributorsList := .ok ["a"] }

/-! ### Users, repository disconnect, account deletion -/

/-- A `User` document (the schema paths used by the verified routines). -/
structure UserDoc where
  id : Nat
  username : String
  email : String
  accessToken : String
  emailReportsEnabled : Bool
  emailReportsFrequency : String
  connectedRepos : List Nat
  deriving Repr, DecidableEq

/-- `disconnectRepo` from the repository controller, after the user and the
repository have been loaded: authorization check, removal of the user from
`repo.users` and of the repository from `user.connectedRepos`, then either
`findByIdAndDelete` (when no users remain) or `repo.save()`, and `user.save()`.
The first component is the stored repository afterwards (`none` = deleted). -/
def disconnectRepo (user : UserDoc) (repo : Repo) :
    Except String (Option Repo × UserDoc) :=
  if repo.users.contains user.id then
    let newUsers := repo.users.filter (fun userId => userId ≠ user.id)
    let user := { user with
      connectedRepos := user.connectedRepos.filter (fun repoId => repoId ≠ repo.id) }
    if newUsers.length = 0 then
      .ok (none, user)
    else
      .ok (some { repo with users := newUsers }, user)
  else
    .error "Not authorized to disconnect this repository"

/-- The persistence state acted on by `deleteUserAccount`. -/
structure Db where
  users : List UserDoc
  repos : List Repo
  deriving Repr, DecidableEq

/-- `deleteUserAccount` from the user controller: `User.findById`, 404 when
absent, then `User.findByIdAndDelete` — and nothing else: no `Repository`
query appears in the handler. -/
def deleteUserAccount (requesterId : Nat) (db : Db) : Except String Db :=
  match db.users.find? (fun u => u.id = requesterId) with
  | none => .error "User not found"
  | some _ => .ok { db with users := db.users.filter (fun u => u.id ≠ requesterId) }

/-! ### Alerts -/

/-- `type` enum of `alertSchema`. -/
inductive AlertType
  | noActivity
  | longOpenPRs
  | commitDrops
  deriving Repr, DecidableEq

/-- `status` enum of `alertSchema`. -/
inductive AlertStatus
  | active
  | resolved
  | dismissed
  deriving Repr, DecidableEq

/-- An `Alert` document. -/
structure AlertDoc where
  id : Nat
  user : Nat
  repository : Nat
  type : AlertType
  message : String
  threshold : ℚ
  value : ℚ
  status : AlertStatus
  resolvedAt : Option Int
  deriving Repr, DecidableEq

/-- The status whitelist `['active', 'resolved', 'dismissed']` of
`updateAlertStatus`, as a parse into the schema enum. -/
def parseAlertStatus (s : String) : Option AlertStatus :=
  if s = "active" then some .active
  else if s = "resolved" then some .resolved
  else if s = "dismissed" then some .dismissed
  else none

/-- The `type` enum strings of `alertSchema`, validated on `Alert.create`. -/
def parseAlertType (s : String) : Option AlertType :=
  if s = "noActivity" then some .noActivity
  else if s = "longOpenPRs" then some .longOpenPRs
  else if s = "commitDrops" then some .commitDrops
  else none

/-- Rendering of an alert type back to its schema string (used to embed the
query `Alert.findOne({..., type, ...})`, whose `type` is the request string).
-/
def alertTypeString : AlertType → String
  | .noActivity => "noActivity"
  | .longOpenPRs => "longOpenPRs"
  | .commitDrops => "commitDrops"

/-- `updateAlertStatus` from the alert controller, acting on the `Alert`
collection: validate the requested status, `Alert.findById`, ownership check,
assign `alert.status`, set `resolvedAt` when the new status is `resolved` or
`dismissed`, then `alert.save()`. Returns the collection afterwards and the
response. -/
def updateAlertStatus (requesterId : Nat) (now : Int) (id : Nat) (status : String)
    (store : List AlertDoc) : List AlertDoc × Except String AlertDoc :=
  match parseAlertStatus status with
  | none => (store, .error "Invalid status")
  | some s =>
    match store.find? (fun a => a.id = id) with
    | none => (store, .error "Alert not found")
    | some alert =>
      if alert.user ≠ requesterId then
        (store, .error "Not authorized to update this alert")
      else
        let alert := { alert with status := s }
        let alert :=
          if s = .resolved ∨ s = .dismissed then { alert with resolvedAt := some now }
          else alert
        (store.map (fun a => if a.id = id then alert else a), .ok alert)

/-- The request body of `POST /api/alert`; `none` models a missing field
(the handler rejects on `!repositoryId || !type || !message ||
threshold === undefined || value === undefined`). -/
structure CreateAlertBody where
  repositoryId : Option Nat
  type : Option String
  message : Option String
  threshold : Option ℚ
  value : Option ℚ
  deriving Repr, DecidableEq

/-- `createAlert` from the alert controller: required-field check,
`Repository.findById`, subscription check, `Alert.findOne` for an existing
*active* alert of the same user/repository/type (rejected with
"Alert already exists" when found), then `Alert.create` with `status: 'active'`
(the schema validates the `type` enum there). Returns the collection
afterwards and the response. -/
def createAlert (requesterId : Nat) (body : CreateAlertBody) (repos : List Repo)
    (newId : Nat) (store : List AlertDoc) : List AlertDoc × Except String AlertDoc :=
  match body.repositoryId, body.type, body.message, body.threshold, body.value with
  | some repositoryId, some ty, some msg, some threshold, some value =>
    match repos.find? (fun rp => rp.id = repositoryId) with
    | none => (store, .error "Repository not found")
    | some rp =>
      if ¬ rp.users.contains requesterId then
        (store, .error "Not authorized to create alerts for this repository")
      else if (store.find? (fun a => a.user = requesterId ∧ a.repository = repositoryId ∧
            alertTypeString a.type = ty ∧ a.status = .active)).isSome then
        (store, .error "Alert already exists")
      else
        match parseAlertType ty with
        | none => (store, .error "Alert validation failed")
        | some t =>
          let alert : AlertDoc :=
            { id := newId, user := requesterId, repository := repositoryId, type := t
              message := msg, threshold := threshold, value := value
              status := .active, resolvedAt := none }
          (store ++ [alert], .ok alert)
  | _, _, _, _, _ => (store, .error "Missing required fields")

/-! ### Reports and the weekly cron run -/

/-- `data.pullRequests` of `reportSchema` (note the field names `opened`,
`merged`, `closed`). -/
structure ReportPrData where
  opened : Nat
  merged : Nat
  closed : Nat
  deriving Repr, DecidableEq

/-- `data.issues` of `reportSchema`. -/
structure ReportIssueData where
  opened : Nat
  closed : Nat
  deriving Repr, DecidableEq

/-- The `data` sub-document of `reportSchema`; every field defaults to 0. -/
structure ReportData where
  commits : Nat
  pullRequests : ReportPrData
  issues : ReportIssueData
  contributors : Nat
  mergeTime : ℚ
  deriving Repr, DecidableEq

/-- The schema defaults of `reportSchema.data`. -/
def defaultReportData : ReportData :=
  { commits := 0, pullRequests := { opened := 0, merged := 0, closed := 0 }
    issues := { opened := 0, closed := 0 }, contributors := 0, mergeTime := 0 }

/-- `status` enum of `reportSchema`; the schema default is `pending`. -/
inductive ReportStatus
  | pending
  | sent
  | failed
  deriving Repr, DecidableEq

/-- A persisted `Report` document: exactly the schema paths of `reportSchema`
(plus the `timestamps: true` `createdAt`). -/
structure ReportDoc where
  id : Nat
  user : Nat
  repository : Nat
  reportType : String
  startDate : Int
  endDate : Int
  data : ReportData
  sentAt : Option Int
  status : ReportStatus
  createdAt : Int
  deriving Repr, DecidableEq

/-- The object literal the cron job passes to `new Report({...})`: it carries
`reportData` (the repository's metrics payload) and `sent`, neither of which
is a path of `reportSchema`. -/
structure CronReportObj where
  user : Nat
  repository : Nat
  reportType : String
  startDate : Int
  endDate : Int
  reportData : Metrics
  sent : Bool
  deriving Repr, DecidableEq

/-- `report.save()` under Mongoose strict mode (the default): only schema
paths are persisted. `reportData` and `sent` are not in `reportSchema`, so
they are dropped; the unprovided `data` and `status` paths take their schema
defaults (`data` all zeros, `status = 'pending'`), and `sentAt` stays unset.
-/
def saveReport (docId : Nat) (now : Int) (obj : CronReportObj) : ReportDoc :=
  { id := docId, user := obj.user, repository := obj.repository
    reportType := obj.reportType, startDate := obj.startDate, endDate := obj.endDate
    data := defaultReportData, sentAt := none, status := .pending, createdAt := now }

/-- Per-repository outcome of the weekly cron run, as observable from the
logs: the report email was sent, or the item failed and was logged. -/
inductive RepoOutcome
  | sent
  | failed (msg : String)
  deriving Repr, DecidableEq

/-- Per-user outcome of the weekly cron run. -/
inductive UserOutcome
  | processed (items : List RepoOutcome)
  | userFailed (msg : String)
  deriving Repr, DecidableEq

/-- The fallible collaborators of one weekly cron run: the user query, the
per-user repository query, and report-email delivery
(`generateReportEmail` + `sendEmail`), plus the report window bounds. -/
structure CronEnv where
  findUsers : Except String (List UserDoc)
  fetchRepositories : Nat → Except String (List Repo)
  sendEmail : Nat → String → Except String Unit
  startOfWeek : Int
  endOfWeek : Int
  now : Int

/-- The `Report` collection plus an id counter for created documents. -/
structure CronState where
  reports : List ReportDoc
  nextId : Nat
  deriving Repr, DecidableEq

/-- The body of the inner `for (const repo of repositories)` loop with its
`try/catch`: build the report object, save it, attempt delivery; on success
set `report.sent = true` (not a schema path) and save again; on failure catch
and log. -/
def processRepo (env : CronEnv) (user : UserDoc) (repo : Repo) (st : CronState) :
    CronState × RepoOutcome :=
  let obj : CronReportObj :=
    { user := user.id, repository := repo.id, reportType := "weekly"
      startDate := env.startOfWeek, endDate := env.endOfWeek
      reportData := repo.metrics, sent := false }
  let doc := saveReport st.nextId env.now obj
  let st : CronState := { reports := st.reports ++ [doc], nextId := st.nextId + 1 }
  match env.sendEmail user.id repo.fullName with
  | .error e => (st, .failed e)
  | .ok _ =>
      -- `report.sent = true; await report.save()`: `sent` is not a schema
      -- path, so the second save persists the same schema fields again
      let doc2 := saveReport doc.id env.now { obj with sent := true }
      ({ st with reports := st.reports.map (fun d => if d.id = doc.id then doc2 else d) },
        .sent)

/-- Sequential iteration over one user's repositories. -/
def processUserRepos (env : CronEnv) (user : UserDoc) :
    List Repo → CronState → CronState × List RepoOutcome
  | [], st => (st, [])
  | repo :: rest, st =>
      let (st1, out) := processRepo env user repo st
      let (st2, outs) := processUserRepos env user rest st1
      (st2, out :: outs)

/-- The body of the outer `for (const user of users)` loop with its
`try/catch`: fetch the user's repositories; a failure there is caught and
logged for that user only. -/
def processUser (env : CronEnv) (user : UserDoc) (st : CronState) :
    CronState × UserOutcome :=
  match env.fetchRepositories user.id with
  | .error e => (st, .userFailed e)
  | .ok repos =>
      let (st1, outs) := processUserRepos env user repos st
      (st1, .processed outs)

/-- Sequential iteration over the selected users. -/
def processUsers (env : CronEnv) :
    List UserDoc → CronState → CronState × List UserOutcome
  | [], st => (st, [])
  | user :: rest, st =>
      let (st1, out) := processUser env user st
      let (st2, outs) := processUsers env rest st1
      (st2, out :: outs)

/-- One weekly run of `scheduleWeeklyReports`: the outermost `try/catch`
turns a failure of the user query into a logged no-op; otherwise every
selected user is processed in order. The run returns normally in all cases.
-/
def scheduleWeeklyReportsRun (env : CronEnv) (st : CronState) :
    CronState × List UserOutcome :=
  match env.findUsers with
  | .error _ => (st, [])
  | .ok users => processUsers env users st

/-- The outcome of one repository item, as a function of that item's own
collaborator results only. -/
def repoOutcome (env : CronEnv) (user : UserDoc) (repo : Repo) : RepoOutcome :=
  match env.sendEmail user.id repo.fullName with
  | .error e => .failed e
  | .ok _ => .sent

/-- The outcome of one user, as a function of that user's own collaborator
results only. -/
def userOutcome (env : CronEnv) (user : UserDoc) : UserOutcome :=
  match env.fetchRepositories user.id with
  | .error e => .userFailed e
  | .ok repos => .processed (repos.map (repoOutcome env user))

/-! ### CSV export -/

/-- A `commits.byAuthor` entry of the shape `generateReportCsv` reads. -/
structure CsvAuthor where
  name : String
  count : Nat
  deriving Repr, DecidableEq

/-- A `commits.byDay` entry of the shape `generateReportCsv` reads. -/
structure CsvDay where
  date : String
  count : Nat
  deriving Repr, DecidableEq

/-- The `reportData.commits` object `generateReportCsv` reads; `none` models
an absent (`undefined`) property. -/
structure CsvCommits where
  total : Int
  byAuthor : Option (List CsvAuthor)
  byDay : Option (List CsvDay)
  deriving Repr, DecidableEq

/-- The `reportData.pullRequests` object `generateReportCsv` reads. -/
structure CsvPullRequests where
  total : Int
  «open» : Int
  closed : Int
  merged : Int
  deriving Repr, DecidableEq

/-- The `reportData.issues` object `generateReportCsv` reads. -/
structure CsvIssues where
  total : Int
  «open» : Int
  closed : Int
  deriving Repr, DecidableEq

/-- A `reportData.contributors` entry of the shape `generateReportCsv` reads.
-/
structure CsvContributor where
  name : String
  contributions : Nat
  deriving Repr, DecidableEq

/-- The `reportData` payload shape dereferenced by `generateReportCsv`.
`mergeTime` uses JavaScript truthiness (`undefined` and `0` both render as
`'N/A'`), modelled by `Option ℚ` with `getD 0`. -/
structure CsvReportData where
  commits : Option CsvCommits
  pullRequests : Option CsvPullRequests
  mergeTime : Option ℚ
  issues : Option CsvIssues
  contributors : Option (List CsvContributor)
  deriving Repr, DecidableEq

/-- The report argument as `generateReportCsv` accesses it (`report: any`).
`reportData := none` models a document without a `reportData` property —
which is every document persisted through `reportSchema`, whose payload path
is named `data`. -/
structure CsvReportInput where
  startDate : Int
  endDate : Int
  createdAt : Int
  reportType : String
  reportData : Option CsvReportData
  deriving Repr, DecidableEq

/-- The `any`-typed view of a persisted `Report` document as received by
`generateReportCsv`: the schema stores the payload under `data`, so the
`reportData` property is absent. -/
def jsView (r : ReportDoc) : CsvReportInput :=
  { startDate := r.startDate, endDate := r.endDate, createdAt := r.createdAt
    reportType := r.reportType, reportData := none }

/-- Two-digit zero padding. -/
def pad2 (n : Nat) : String :=
  if n < 10 then "0" ++ toString n else toString n

/-- `formatDate` from `dateUtils`: `date.toISOString().split('T')[0]`, i.e.
the proleptic-Gregorian UTC date `YYYY-MM-DD` of an epoch-milliseconds value
(civil-from-days conversion). -/
def formatDate (ms : Int) : String :=
  let days : Int := ms.ediv 86400000
  let z : Int := days + 719468
  let era : Int := z.ediv 146097
  let doe : Int := z - era * 146097
  let yoe : Int := (doe - doe.ediv 1460 + doe.ediv 36524 - doe.ediv 146096).ediv 365
  let y : Int := yoe + era * 400
  let doy : Int := doe - (365 * yoe + yoe.ediv 4 - yoe.ediv 100)
  let mp : Int := (5 * doy + 2).ediv 153
  let d : Int := doy - (153 * mp + 2).ediv 5 + 1
  let m : Int := mp + (if mp < 10 then 3 else -9)
  let y : Int := y + (if m ≤ 2 then 1 else 0)
  toString y ++ "-" ++ pad2 m.toNat ++ "-" ++ pad2 d.toNat

/-- `Number.prototype.toFixed(2)` on the exact rational value: round to two
decimal places and render with exactly two digits after the point. -/
def toFixed2 (q : ℚ) : String :=
  let scaled : Int := round (q * 100)
  let sign := if scaled < 0 then "-" else ""
  sign ++ toString (scaled.natAbs / 100) ++ "." ++ pad2 (scaled.natAbs % 100)

/-- `generateReportCsv` from the CSV exporter utility. The accumulating `csv`
string is built exactly as in the source; dereferencing `report.reportData`
when that property is absent is the JavaScript `TypeError` on reading
`.commits` of `undefined`, which rejects the promise. -/
def generateReportCsv (report : CsvReportInput) (repository : Repo) :
    Except String String :=
  let csv := "Metric,Value,Details\n"
  let csv := csv ++ "Repository," ++ repository.fullName ++ ","
    ++ (if repository.description = "" then "No description" else repository.description)
    ++ "\n"
  let csv := csv ++ "Report Period," ++ formatDate report.startDate ++ " to "
    ++ formatDate report.endDate ++ "," ++ report.reportType ++ " report\n"
  let csv := csv ++ "Generated On," ++ formatDate report.createdAt ++ ",\n"
  let csv := csv ++ "\n"
  let csv := csv ++ "METRICS SUMMARY,\n"
  match report.reportData with
  | none => .error "TypeError: Cannot read properties of undefined (reading commits)"
  | some reportData =>
    let csv :=
      match reportData.commits with
      | none => csv
      | some commits =>
        let csv := csv ++ "Total Commits," ++ toString commits.total ++ ",\n"
        let csv :=
          if (commits.byAuthor.getD []).length > 0 then
            csv ++ "Commits by Author,\n"
              ++ String.join ((commits.byAuthor.getD []).map
                  (fun author => "," ++ author.name ++ "," ++ toString author.count
                    ++ " commits\n"))
          else csv
        let csv :=
          if (commits.byDay.getD []).length > 0 then
            csv ++ "Commits by Day,\n"
              ++ String.join ((commits.byDay.getD []).map
                  (fun day => "," ++ day.date ++ "," ++ toString day.count
                    ++ " commits\n"))
          else csv
        csv
    let csv :=
      match reportData.pullRequests with
      | none => csv
      | some pulls =>
        csv ++ "\nPull Requests," ++ toString pulls.total ++ ",\n"
          ++ "Open Pull Requests," ++ toString pulls.«open» ++ ",\n"
          ++ "Closed Pull Requests," ++ toString pulls.closed ++ ",\n"
          ++ "Merged Pull Requests," ++ toString pulls.merged ++ ",\n"
          ++ "Average Merge Time,"
          ++ (if reportData.mergeTime.getD 0 ≠ 0 then
                toFixed2 (reportData.mergeTime.getD 0) ++ " hours"
              else "N/A")
          ++ ",\n"
    let csv :=
      match reportData.issues with
      | none => csv
      | some issues =>
        csv ++ "\nIssues," ++ toString issues.total ++ ",\n"
          ++ "Open Issues," ++ toString issues.«open» ++ ",\n"
          ++ "Closed Issues," ++ toString issues.closed ++ ",\n"
    let csv :=
      if (reportData.contributors.getD []).length > 0 then
        csv ++ "\nContributors,\n"
          ++ String.join ((reportData.contributors.getD []).map
              (fun contributor => "," ++ contributor.name ++ ","
                ++ toString contributor.contributions ++ " contributions\n"))
      else csv
    .ok csv

/-- A stored `User` document, id 1, weekly email reports enabled. -/
def userFixture : UserDoc :=
  { id := 1, username := "octo", email := "octo@x.io", accessToken := "tok"
    emailReportsEnabled := true, emailReportsFrequency := "weekly", connectedRepos := [1] }

/-- A second stored `User` document, id 2. -/
def userFixture2 : UserDoc :=
  { id := 2, username := "octo2", email := "octo2@x.io", accessToken := "tok2"
    emailReportsEnabled := true, emailReportsFrequency := "weekly", connectedRepos := [] }

/-- An alert record that has already been resolved. -/
def resolvedAlertFixture : AlertDoc :=
  { id := 7, user := 1, repository := 1, type := .commitDrops, message := "drop"
    threshold := 70, value := 0, status := .resolved, resolvedAt := some 5 }

/-- An active alert record for user 1 / repository 1 / `noActivity`. -/
def activeAlertFixture : AlertDoc :=
  { id := 8, user := 1, repository := 1, type := .noActivity, message := "no commits"
    threshold := 7, value := 0, status := .active, resolvedAt := none }

/-- A well-formed `POST /api/alert` request body for a `noActivity` alert on
repository 1. -/
def bodyFixture : CreateAlertBody :=
  { repositoryId := some 1, type := some "noActivity", message := some "no commits"
    threshold := some 7, value := some 0 }

/-- A cron environment with two selected users where fetching the repositories
of user 2 fails (an expired credential, say) and delivery succeeds. -/
def envIsolationW : CronEnv :=
  { findUsers := .ok [userFixture, userFixture2]
    fetchRepositories := fun uid => if uid = 1 then .ok [baseRepo]
      else .error "expired credential"
    sendEmail := fun _ _ => .ok ()
    startOfWeek := 0, endOfWeek := 604800000, now := 604800000 }

/-- A cron environment with one selected user, one repository, and successful
email delivery. -/
def envDeliveryOk : CronEnv :=
  { findUsers := .ok [userFixture]
    fetchRepositories := fun _ => .ok [baseRepo]
    sendEmail := fun _ _ => .ok ()
    startOfWeek := 0, endOfWeek := 604800000, now := 604800000 }

/-- A `Report` document exactly as `reportSchema` persists it, with a
non-trivial `data` payload. -/
def sampleReportDoc : ReportDoc :=
  { id := 3, user := 1, repository := 1, reportType := "weekly"
    startDate := 0, endDate := 604800000
    data :=
      { commits := 7, pullRequests := { opened := 2, merged := 3, closed := 4 }
        issues := { opened := 5, closed := 6 }, contributors := 2, mergeTime := 4 }
    sentAt := none, status := .pending, createdAt := 604800000 }

/-! ## Theorems -/

/-- `totalMergeTime` is the sum of the per-PR merge durations in hours. -/
theorem totalMergeTime_eq_sum (l : List PullReq) :
    totalMergeTime l =
      (l.map (fun pr => ((pr.merged_at.getD 0 - pr.created_at : Int) : ℚ) / msPerHour)).sum := by
  have aux : ∀ (t : List PullReq) (init : ℚ),
      t.foldl (fun sum pr =>
        sum + ((pr.merged_at.getD 0 - pr.created_at : Int) : ℚ) / msPerHour) init =
      init + (t.map (fun pr =>
        ((pr.merged_at.getD 0 - pr.created_at : Int) : ℚ) / msPerHour)).sum := by
    intro t
    induction t with
    | nil => intro init; simp
    | cons pr tl ih =>
        intro init
        rw [List.foldl_cons, List.map_cons, List.sum_cons, ih]
        ring
  rw [totalMergeTime, aux]
  exact zero_add _

/-- C1 (amended). After a successful metrics refresh whose closed-PR fetch
returned `closedPRs`: if at least one of them is merged, the stored `mergeTime`
is the arithmetic mean, in hours, of `(mergedAt - createdAt)` over the merged
PRs; if none is merged, the stored `mergeTime` is left unchanged at its prior
stored value (it is *not* reset to 0); and it is non-negative provided every
merged PR was merged no earlier than created and the prior stored value was
non-negative. -/
theorem updateRepoMetrics_mergeTime_spec (now : Int) (gh : GhFetch) (repo r : Repo)
    (closedPRs : List PullReq)
    (hc : gh.closedPullRequests = .ok closedPRs)
    (hok : updateRepoMetrics now gh repo = .ok r) :
    (0 < (closedPRs.filter (fun pr => pr.merged_at.isSome)).length →
        r.metrics.mergeTime =
          ((closedPRs.filter (fun pr => pr.merged_at.isSome)).map
              (fun pr => ((pr.merged_at.getD 0 - pr.created_at : Int) : ℚ) / msPerHour)).sum /
            (closedPRs.filter (fun pr => pr.merged_at.isSome)).length) ∧
    ((closedPRs.filter (fun pr => pr.merged_at.isSome)).length = 0 →
        r.metrics.mergeTime = repo.metrics.mergeTime) ∧
    ((∀ pr ∈ closedPRs.filter (fun pr => pr.merged_at.isSome),
          pr.created_at ≤ pr.merged_at.getD 0) →
        0 ≤ repo.metrics.mergeTime → 0 ≤ r.metrics.mergeTime) := by
  obtain ⟨g1, g2, g3, g4, g5, g6, g7⟩ := gh
  subst hc
  cases g1 <;> cases g2 <;> cases g3 <;> cases g5 <;> cases g6 <;> cases g7 <;>
    simp_all [updateRepoMetrics, Except.bind, bind, pure, Except.pure]
  subst hok
  refine ⟨?_, ?_, ?_⟩
  · intro h
    simp only [h, if_pos, totalMergeTime_eq_sum]
    simp [h]
  · intro h
    have hlen : (closedPRs.filter (fun pr => pr.merged_at.isSome)).length = 0 := by
      simp only [List.length_eq_zero, List.filter_eq_nil_iff]
      intro a ha
      simp [h a ha]
    simp [hlen]
  · intro hmono hnn
    simp only
    split
    · rename_i hpos
      rw [totalMergeTime_eq_sum]
      apply div_nonneg _ (by positivity)
      apply List.sum_nonneg
      intro x hx
      simp only [List.mem_map] at hx
      obtain ⟨pr, hpr, rfl⟩ := hx
      have hin := List.mem_filter.mp hpr
      have hle := hmono pr hin.1 hin.2
      have hms : (0:ℚ) < msPerHour := by norm_num [msPerHour]
      apply div_nonneg _ (le_of_lt hms)
      have hcast : (pr.created_at : ℚ) ≤ ((pr.merged_at.getD 0 : Int) : ℚ) := by
        exact_mod_cast hle
      push_cast
      linarith
    · exact hnn

/-- C1 counterexample. A refresh in which the closed-PR fetch returns one
unmerged PR (zero merged PRs) succeeds, yet the stored `mergeTime` stays at its
prior value 5 instead of the 0 the claim requires. -/
theorem updateRepoMetrics_mergeTime_counterexample :
    isErr (updateRepoMetrics 0 (ghAllOk [⟨3⟩] [{ created_at := 0, merged_at := none }])
        { baseRepo with metrics := metricsWithMergeTime 5 }) = false ∧
    (ghAllOk [⟨3⟩] [{ created_at := 0, merged_at := none }]).closedPullRequests.map
        (fun l => (l.filter (fun pr => pr.merged_at.isSome)).length) = .ok 0 ∧
    (persistedAfterRefresh 0 (ghAllOk [⟨3⟩] [{ created_at := 0, merged_at := none }])
        { baseRepo with metrics := metricsWithMergeTime 5 }).metrics.mergeTime = 5 ∧
    (5 : ℚ) ≠ 0 := by
  refine ⟨rfl, rfl, rfl, by norm_num⟩

/-- C1 witness: a refresh fetching one PR merged two hours after creation has
the theorem's hypotheses satisfiable, and the stored mean is 2 hours. -/
theorem updateRepoMetrics_mergeTime_witness :
    (persistedAfterRefresh 0 (ghAllOk [⟨3⟩] [{ created_at := 0, merged_at := some 7200000 }])
        baseRepo).metrics.mergeTime = 2 := by
  have h := updateRepoMetrics_mergeTime_spec 0
      (ghAllOk [⟨3⟩] [{ created_at := 0, merged_at := some 7200000 }]) baseRepo
      (persistedAfterRefresh 0
        (ghAllOk [⟨3⟩] [{ created_at := 0, merged_at := some 7200000 }]) baseRepo)
      [{ created_at := 0, merged_at := some 7200000 }] rfl rfl
  rw [h.1 (by decide)]
  norm_num [msPerHour]

/-- C2 (confirmed). After a successful metrics refresh whose weekly-activity
fetch returned `acts` of length ≥ 2, the stored `commitDrops` flag is true iff
the previous week's count is positive and (the current week's count is 0 or
current/previous < 0.3); with fewer than 2 entries the flag is left unchanged.
-/
theorem updateRepoMetrics_commitDrops_spec (now : Int) (gh : GhFetch) (repo r : Repo)
    (acts : List WeekActivity)
    (ha : gh.getWeeklyCommitActivity = .ok acts)
    (hok : updateRepoMetrics now gh repo = .ok r) :
    (2 ≤ acts.length →
      (r.alerts.commitDrops = true ↔
        0 < (acts.map (fun w => w.total)).getD (acts.length - 2) 0 ∧
          ((acts.map (fun w => w.total)).getD (acts.length - 1) 0 = 0 ∨
            ((acts.map (fun w => w.total)).getD (acts.length - 1) 0 : ℚ) /
              ((acts.map (fun w => w.total)).getD (acts.length - 2) 0 : ℚ) < 3 / 10))) ∧
    (acts.length < 2 → r.alerts.commitDrops = repo.alerts.commitDrops) := by
  obtain ⟨g1, g2, g3, g4, g5, g6, g7⟩ := gh
  subst ha
  cases g1 <;> cases g3 <;> cases g4 <;> cases g5 <;> cases g6 <;> cases g7 <;>
    simp_all [updateRepoMetrics, Except.bind, bind, pure, Except.pure]
  subst hok
  constructor
  · intro h2
    simp only [h2, List.length_map, if_pos]
    obtain ⟨w1, hw1⟩ : ∃ w, acts[acts.length - 1]? = some w :=
      ⟨_, List.getElem?_eq_getElem (by omega)⟩
    obtain ⟨w2, hw2⟩ : ∃ w, acts[acts.length - 2]? = some w :=
      ⟨_, List.getElem?_eq_getElem (by omega)⟩
    simp only [hw1, hw2, Option.getD_some, Option.map_some]
    simp only [Bool.or_eq_true, Bool.and_eq_true, decide_eq_true_eq]
    tauto
  · intro h2
    have hn : ¬ (2 ≤ acts.length) := by omega
    simp [hn]

/-- C2 witness: on the series `[5, 0]` (previous 5, current 0) a successful
refresh stores `commitDrops = true`. -/
theorem updateRepoMetrics_commitDrops_witness :
    (persistedAfterRefresh 0 (ghAllOk [⟨5⟩, ⟨0⟩] []) baseRepo).alerts.commitDrops = true := by
  have h := updateRepoMetrics_commitDrops_spec 0 (ghAllOk [⟨5⟩, ⟨0⟩] []) baseRepo
      (persistedAfterRefresh 0 (ghAllOk [⟨5⟩, ⟨0⟩] []) baseRepo) [⟨5⟩, ⟨0⟩] rfl rfl
  exact (h.1 (by decide)).mpr (by decide)

/-- C5 (confirmed). If any of the seven GitHub calls of a refresh fails, the
refresh returns that error (it propagates to the caller) and the stored
repository document is exactly what it was before the refresh: nothing is
persisted. -/
theorem updateRepoMetrics_failure_atomic (now : Int) (gh : GhFetch) (repo : Repo)
    (h : (isErr gh.getRepo || isErr gh.getWeeklyCommitActivity ||
          isErr gh.openPullRequests || isErr gh.closedPullRequests ||
          isErr gh.openIssuesList || isErr gh.closedIssuesList ||
          isErr gh.contributorsList) = true) :
    isErr (updateRepoMetrics now gh repo) = true ∧
      persistedAfterRefresh now gh repo = repo := by
  obtain ⟨g1, g2, g3, g4, g5, g6, g7⟩ := gh
  cases g1 <;> cases g2 <;> cases g3 <;> cases g4 <;> cases g5 <;> cases g6 <;> cases g7 <;>
    simp_all [updateRepoMetrics, persistedAfterRefresh, isErr, Except.bind, bind, pure,
      Except.pure]

/-- C5 witness: with the weekly-activity call failing and all others
succeeding, the refresh errors and the stored document is unchanged. -/
theorem updateRepoMetrics_failure_atomic_witness :
    isErr (updateRepoMetrics 0
        { ghAllOk [⟨3⟩] [] with getWeeklyCommitActivity := .error "upstream 502" }
        baseRepo) = true ∧
      persistedAfterRefresh 0
        { ghAllOk [⟨3⟩] [] with getWeeklyCommitActivity := .error "upstream 502" }
        baseRepo = baseRepo :=
  updateRepoMetrics_failure_atomic 0
    { ghAllOk [⟨3⟩] [] with getWeeklyCommitActivity := .error "upstream 502" }
    baseRepo (by decide)


/-- C9 (confirmed). Disconnecting a subscribed user from a repository: when
the filtered subscriber list is empty the repository record is deleted
(`none`); otherwise the stored repository equals the old one with only the
`users` field changed (metrics and every other field untouched). In both
cases the user record loses the repository from `connectedRepos`. -/
theorem disconnectRepo_spec (user : UserDoc) (repo : Repo)
    (h : repo.users.contains user.id = true) :
    (repo.users.filter (fun userId => userId ≠ user.id) = [] →
        disconnectRepo user repo = .ok (none,
          { user with connectedRepos :=
              user.connectedRepos.filter (fun repoId => repoId ≠ repo.id) })) ∧
    (repo.users.filter (fun userId => userId ≠ user.id) ≠ [] →
        disconnectRepo user repo = .ok
          (some { repo with users := repo.users.filter (fun userId => userId ≠ user.id) },
            { user with connectedRepos :=
                user.connectedRepos.filter (fun repoId => repoId ≠ repo.id) })) := by
  constructor
  · intro h2
    simp only [disconnectRepo, h, h2]
    simp
  · intro h2
    obtain ⟨x, xs, hx⟩ : ∃ x xs,
        repo.users.filter (fun userId => userId ≠ user.id) = x :: xs := by
      cases hq : repo.users.filter (fun userId => userId ≠ user.id) with
      | nil => exact absurd hq h2
      | cons x xs => exact ⟨x, xs, rfl⟩
    simp only [disconnectRepo, h, hx]
    simp

/-- C9 witness: user 1 is the last subscriber of `baseRepo`, so disconnecting
deletes the repository record. -/
theorem disconnectRepo_spec_witness :
    disconnectRepo userFixture baseRepo =
      .ok (none, { userFixture with connectedRepos := [] }) := by
  have h := disconnectRepo_spec userFixture baseRepo (by decide)
  have h2 := h.1 (by decide)
  rw [h2]
  rfl

/-- C6: evaluation of `deleteUserAccount` at the failing input. User 1 is the
sole subscriber of the stored repository; deleting the account removes only
the user document, while the repository survives with the deleted id still in
its `users` list — the claimed subscriber-set cleanup and cascade deletion do
not happen. -/
theorem deleteUserAccount_orphan_eval :
    deleteUserAccount 1 { users := [userFixture], repos := [baseRepo] } =
      .ok { users := [], repos := [baseRepo] } ∧
    baseRepo.users = [1] := by
  exact ⟨rfl, rfl⟩

/-- C7 counterexample: `updateAlertStatus` with requested status `active` on a
`resolved` record moves that same record back to `active` (and leaves
`resolvedAt` set), contradicting the claim that no operation ever does so. -/
theorem updateAlertStatus_reactivation_counterexample :
    (updateAlertStatus 1 20 7 "active" [resolvedAlertFixture]).2 =
      .ok { resolvedAlertFixture with status := .active } ∧
    (updateAlertStatus 1 20 7 "active" [resolvedAlertFixture]).1 =
      [{ resolvedAlertFixture with status := .active }] ∧
    resolvedAlertFixture.status = .resolved := by
  refine ⟨rfl, rfl, rfl⟩

/-- C7 (amended). `resolved`/`dismissed` are not terminal: `updateAlertStatus`
accepts `active` as a target and sets the found record back to `active`,
persisting it. A fresh trigger via `createAlert` never modifies existing
records: the prior store is preserved verbatim as a prefix and anything
appended is a new record with the fresh id and status `active`. -/
theorem updateAlertStatus_reactivates_spec (requesterId : Nat) (now : Int)
    (alert : AlertDoc) (store : List AlertDoc)
    (hfind : store.find? (fun a => a.id = alert.id) = some alert)
    (hown : alert.user = requesterId) :
    (updateAlertStatus requesterId now alert.id "active" store).2 =
        .ok { alert with status := .active } ∧
    (updateAlertStatus requesterId now alert.id "active" store).1 =
        store.map (fun a =>
          if a.id = alert.id then { alert with status := .active } else a) ∧
    (∀ (body : CreateAlertBody) (repos : List Repo) (newId : Nat),
      ((createAlert requesterId body repos newId store).1).take store.length = store ∧
      ∀ a ∈ ((createAlert requesterId body repos newId store).1).drop store.length,
        a.status = .active ∧ a.id = newId) := by
  refine ⟨?_, ?_, ?_⟩
  · simp [updateAlertStatus, parseAlertStatus, hfind, hown]
  · simp [updateAlertStatus, parseAlertStatus, hfind, hown]
  · intro body repos newId
    have base : List.take store.length store = store ∧
        ∀ a ∈ List.drop store.length store, a.status = .active ∧ a.id = newId := by
      refine ⟨List.take_length store, ?_⟩
      simp [List.drop_length]
    obtain ⟨b1, b2, b3, b4, b5⟩ := body
    cases b1 <;> cases b2 <;> cases b3 <;> cases b4 <;> cases b5 <;> try exact base
    rename_i repositoryId ty msg threshold value
    simp only [createAlert]
    split
    · exact base
    · split_ifs with h1 h2 <;> try exact base
      split
      · exact base
      · dsimp only
        refine ⟨List.take_left store _, ?_⟩
        intro a ha
        rw [List.drop_left] at ha
        simp only [List.mem_singleton] at ha
        subst ha
        exact ⟨rfl, rfl⟩

/-- C7 witness: the amended theorem applied to the resolved fixture — its
record is reactivated in the store, and a `createAlert` call on the same
store keeps the stored record unchanged in place. -/
theorem updateAlertStatus_reactivates_spec_witness :
    (updateAlertStatus 1 20 7 "active" [resolvedAlertFixture]).1 =
      [{ resolvedAlertFixture with status := .active }] ∧
    ((createAlert 1 bodyFixture [baseRepo] 9 [resolvedAlertFixture]).1).take 1 =
      [resolvedAlertFixture] := by
  have h := updateAlertStatus_reactivates_spec 1 20 resolvedAlertFixture
      [resolvedAlertFixture] rfl rfl
  constructor
  · exact h.2.1.trans rfl
  · exact (h.2.2 bodyFixture [baseRepo] 9).1

/-- C8 counterexample: at-most-one-active is not an invariant. Starting from
an empty alert collection: create a `noActivity` alert (id 100), resolve it,
create a second one (id 101, allowed because none is active), then set alert
100 back to `active` via `updateAlertStatus` — the store now holds two
`active` alerts of the same user, repository and type. -/
theorem duplicate_active_alerts_counterexample :
    (let s1 := (createAlert 1 bodyFixture [baseRepo] 100 []).1
     let s2 := (updateAlertStatus 1 10 100 "resolved" s1).1
     let s3 := (createAlert 1 bodyFixture [baseRepo] 101 s2).1
     let s4 := (updateAlertStatus 1 20 100 "active" s3).1
     (s4.filter (fun a => a.user = 1 ∧ a.repository = 1 ∧ a.type = .noActivity ∧
        a.status = .active)).length) = 2 := by decide

/-- C8 (amended). Requesting creation of an alert while an active alert of
the same type already exists for the same user and repository is rejected
with `Alert already exists` and the collection is unchanged. (The
at-most-one-active formulation of the claim is not an invariant, since
`updateAlertStatus` can reactivate a resolved record; see the
counterexample.) -/
theorem createAlert_rejects_duplicate_active
    (requesterId : Nat) (body : CreateAlertBody) (repos : List Repo) (newId : Nat)
    (store : List AlertDoc) (repositoryId : Nat) (ty msg : String)
    (threshold value : ℚ) (rp : Repo)
    (h1 : body.repositoryId = some repositoryId) (h2 : body.type = some ty)
    (h3 : body.message = some msg) (h4 : body.threshold = some threshold)
    (h5 : body.value = some value)
    (hrepo : repos.find? (fun r => r.id = repositoryId) = some rp)
    (hauth : rp.users.contains requesterId = true)
    (hdup : (store.find? (fun a => a.user = requesterId ∧ a.repository = repositoryId ∧
        alertTypeString a.type = ty ∧ a.status = .active)).isSome = true) :
    createAlert requesterId body repos newId store =
      (store, .error "Alert already exists") := by
  obtain ⟨b1, b2, b3, b4, b5⟩ := body
  subst h1; subst h2; subst h3; subst h4; subst h5
  simp at hauth hdup
  simp [createAlert, hrepo, hauth, hdup]

/-- C8 witness: with an active `noActivity` alert already stored, a second
creation request for the same type is rejected and the store is unchanged. -/
theorem createAlert_rejects_duplicate_active_witness :
    createAlert 1 bodyFixture [baseRepo] 9 [activeAlertFixture] =
      ([activeAlertFixture], .error "Alert already exists") :=
  createAlert_rejects_duplicate_active 1 bodyFixture [baseRepo] 9 [activeAlertFixture]
    1 "noActivity" "no commits" 7 0 baseRepo rfl rfl rfl rfl rfl rfl (by decide) (by decide)

/-- The per-repository outcome of the cron loop body depends only on that
item, not on the accumulated state. -/
theorem processRepo_outcome (env : CronEnv) (user : UserDoc) (repo : Repo)
    (st : CronState) :
    (processRepo env user repo st).2 = repoOutcome env user repo := by
  simp only [processRepo, repoOutcome]
  cases env.sendEmail user.id repo.fullName <;> rfl

/-- Every repository of a user is processed and yields its own outcome,
whatever happened to earlier items. -/
theorem processUserRepos_outcomes (env : CronEnv) (user : UserDoc) (repos : List Repo) :
    ∀ st, (processUserRepos env user repos st).2 = repos.map (repoOutcome env user) := by
  induction repos with
  | nil => intro st; rfl
  | cons repo rest ih =>
      intro st
      simp only [processUserRepos, List.map_cons]
      rcases hp : processRepo env user repo st with ⟨st1, out⟩
      dsimp only
      rcases hq : processUserRepos env user rest st1 with ⟨st2, outs⟩
      dsimp only
      have hout : out = repoOutcome env user repo := by
        have h := processRepo_outcome env user repo st
        rw [hp] at h
        exact h
      have houts : outs = rest.map (repoOutcome env user) := by
        have h := ih st1
        rw [hq] at h
        exact h
      rw [hout, houts]

/-- C3 (confirmed). A scheduled weekly run yields exactly one outcome per
selected user, and each outcome — including one per repository of that user —
is a function of that item alone (`userOutcome`/`repoOutcome`): a failure
while generating or delivering one report is recorded for that item and
cannot prevent any other repository or user from being processed. The run
itself is a total function returning normally on every input (the outer catch
absorbs even a failing user query). -/
theorem scheduleWeeklyReports_isolation (env : CronEnv) (users : List UserDoc)
    (st : CronState) (h : env.findUsers = .ok users) :
    (scheduleWeeklyReportsRun env st).2 = users.map (userOutcome env) := by
  have main : ∀ (us : List UserDoc) (s : CronState),
      (processUsers env us s).2 = us.map (userOutcome env) := by
    intro us
    induction us with
    | nil => intro s; rfl
    | cons u rest ih =>
        intro s
        simp only [processUsers, List.map_cons]
        rcases hu : processUser env u s with ⟨s1, out⟩
        dsimp only
        rcases hr : processUsers env rest s1 with ⟨s2, outs⟩
        dsimp only
        have hout : out = userOutcome env u := by
          have huo : (processUser env u s).2 = userOutcome env u := by
            simp only [processUser, userOutcome]
            cases env.fetchRepositories u.id with
            | error e => rfl
            | ok repos =>
                dsimp only
                rcases hq : processUserRepos env u repos s with ⟨s3, outs3⟩
                dsimp only
                have h3 := processUserRepos_outcomes env u repos s
                rw [hq] at h3
                exact congrArg UserOutcome.processed h3
          rw [hu] at huo
          exact huo
        have houts : outs = rest.map (userOutcome env) := by
          have h2 := ih s1
          rw [hr] at h2
          exact h2
        rw [hout, houts]
  simp only [scheduleWeeklyReportsRun, h]
  exact main users st

/-- C3 witness: with user 2 failing at the repository fetch, the run still
processes user 1 (report sent) and records the failure for user 2, returning
normally. -/
theorem scheduleWeeklyReports_isolation_witness :
    (scheduleWeeklyReportsRun envIsolationW { reports := [], nextId := 0 }).2 =
      [.processed [.sent], .userFailed "expired credential"] := by
  rw [scheduleWeeklyReports_isolation envIsolationW [userFixture, userFixture2]
      { reports := [], nextId := 0 } rfl]
  rfl

/-- C4: evaluation at the failing input. In a run whose email delivery
succeeds (outcome `sent`), the one persisted report still has status
`pending` and no `sentAt`: the cron job sets a `sent` boolean that is not a
path of `reportSchema`, so the success is never persisted as the claimed
`status = sent` + `sentAt`. -/
theorem report_sent_flag_never_persisted :
    (scheduleWeeklyReportsRun envDeliveryOk { reports := [], nextId := 0 }).2 =
      [.processed [.sent]] ∧
    ((scheduleWeeklyReportsRun envDeliveryOk { reports := [], nextId := 0 }).1.reports.map
        (fun d => (d.status, d.sentAt))) = [(.pending, none)] :=
  ⟨rfl, rfl⟩

/-- C10: evaluation at the failing input. A `Report` document persisted
through `reportSchema` keeps its payload under `data`; `generateReportCsv`
dereferences `report.reportData`, which such a document does not have, so the
export fails with a `TypeError` instead of producing CSV — the claimed
round-trip is impossible for every schema-conformant record, even one whose
payload holds non-trivial counts. -/
theorem generateReportCsv_reportData_type_error :
    generateReportCsv (jsView sampleReportDoc) baseRepo =
      .error "TypeError: Cannot read properties of undefined (reading commits)" ∧
    sampleReportDoc.data.commits = 7 ∧
    sampleReportDoc.data.pullRequests = { opened := 2, merged := 3, closed := 4 } ∧
    sampleReportDoc.data.issues = { opened := 5, closed := 6 } :=
  ⟨rfl, rfl, rfl, rfl⟩

end DevInsight
